import Mathlib

/-!
Shallow embedding of `src/http_server/request/cgi_request/cgi_response.rs`
from the rust-web-cgi repository, together with proofs about the CGI
response parser (`parse_cgi_headers`, `parse_cgi_response`) and the
response classifier (`convert_cgi_response_to_http` with its three leaf
builders `local_redirect`, `client_redirect`, `document_response`).

Modelling conventions:
- Rust `Result<T, ()>` becomes `Option T` (the source's parse error type
  is the unit type, carrying no information).
- The two `debug!`-logged failure branches of the source parser
  ("Malformed CGI response" and "Invalid CGI header") are additionally
  tracked by an instrumented companion `parse_cgi_headers_traced` whose
  error type `CGIParseFailure` records which branch fired; an agreement
  lemma ties it to the untraced function.
- `HashMap<CGIResponseHeader, String>` over the closed three-variant key
  enum becomes a structure with one `Option String` field per key.
- External collaborators (the `http` crate's fallible request/response
  builders, the static handler, the error-response renderer from
  `crate::http_server::response`) are parameters of the classifier
  functions, exactly as loose as the interfaces the source consumes.
-/

/-- The closed header enumeration from the source
(`enum CGIResponseHeader { ContentType, Location, Status }`). -/
inductive CGIResponseHeader : Type where
  | ContentType : CGIResponseHeader
  | Location : CGIResponseHeader
  | Status : CGIResponseHeader
  deriving DecidableEq, Repr

/-- ASCII lower-casing of a single character, as in Rust
`u8::to_ascii_lowercase` (non-ASCII characters are untouched). -/
def asciiLower (c : Char) : Char :=
  if 'A' ≤ c ∧ c ≤ 'Z' then Char.ofNat (c.toNat + 32) else c

/-- Rust `str::eq_ignore_ascii_case`: equality after ASCII lower-casing
both sides. -/
def eq_ignore_ascii_case (a b : String) : Bool :=
  a.data.map asciiLower == b.data.map asciiLower

/-- Header-name recognition, as derived on the source enum by
`#[derive(strum_macros::EnumString)]` with
`#[strum(serialize_all = "Train-Case", ascii_case_insensitive)]`:
the input matches a variant iff it equals that variant's Train-Case
serialization ("Content-Type", "Location", "Status") up to ASCII case. -/
def CGIResponseHeader.from_str (s : String) : Option CGIResponseHeader :=
  if eq_ignore_ascii_case s "Content-Type" then some CGIResponseHeader.ContentType
  else if eq_ignore_ascii_case s "Location" then some CGIResponseHeader.Location
  else if eq_ignore_ascii_case s "Status" then some CGIResponseHeader.Status
  else none

/-- The source's `CGIResponseHeaderMap = HashMap<CGIResponseHeader, String>`:
since the key type is a closed three-variant enum, the map is one
`Option String` per key. -/
structure CGIResponseHeaderMap : Type where
  contentType : Option String
  location : Option String
  status : Option String
  deriving DecidableEq, Repr

/-- The fresh map `CGIResponseHeaderMap::new()`. -/
def CGIResponseHeaderMap.empty : CGIResponseHeaderMap :=
  ⟨none, none, none⟩

/-- HashMap `insert`: overwrite the value stored under the key. -/
def CGIResponseHeaderMap.insert (m : CGIResponseHeaderMap)
    (k : CGIResponseHeader) (v : String) : CGIResponseHeaderMap :=
  match k with
  | CGIResponseHeader.ContentType => { m with contentType := some v }
  | CGIResponseHeader.Location => { m with location := some v }
  | CGIResponseHeader.Status => { m with status := some v }

/-- HashMap `get`. -/
def CGIResponseHeaderMap.get (m : CGIResponseHeaderMap) :
    CGIResponseHeader → Option String
  | CGIResponseHeader.ContentType => m.contentType
  | CGIResponseHeader.Location => m.location
  | CGIResponseHeader.Status => m.status

/-- The source's `CGIScriptResponse { headers, body }`. -/
structure CGIScriptResponse : Type where
  headers : CGIResponseHeaderMap
  body : String
  deriving DecidableEq, Repr

/-- Rust `str::split_once(":")` at the character level: split at the first
occurrence of the separator, returning the text before and after it, or
nothing when the separator does not occur. -/
def split_once_chars (sep : Char) : List Char → Option (List Char × List Char)
  | [] => none
  | c :: rest =>
    if c = sep then some ([], rest)
    else
      match split_once_chars sep rest with
      | none => none
      | some (b, a) => some (c :: b, a)

/-- Rust `str::split_once` lifted to `String`. -/
def split_once (s : String) (sep : Char) : Option (String × String) :=
  match split_once_chars sep s.data with
  | none => none
  | some (b, a) => some (String.mk b, String.mk a)

/-- Strip one trailing carriage return, used by `rustLines` for segments
that were terminated by a newline (Rust treats `\r\n` as one line ending). -/
def stripCR (l : List Char) : List Char :=
  if l.getLast? = some '\r' then l.dropLast else l

/-- Split a character list at every newline character, keeping empty
segments (the analogue of splitting on the separator `\n`). -/
def splitNl : List Char → List (List Char)
  | [] => [[]]
  | c :: rest =>
    if c = '\n' then [] :: splitNl rest
    else
      match splitNl rest with
      | [] => [[c]]
      | seg :: segs => (c :: seg) :: segs

/-- Rust `str::lines`, the line iterator the source parser consumes:
lines are separated by `\n` (a preceding `\r` is stripped), a final line
ending is optional and produces no trailing empty line, and the empty
string yields no lines at all.  A trailing `\r` on the final unterminated
line is kept, since it is not part of a `\r\n` line ending. -/
def rustLines (s : String) : List String :=
  match s.data with
  | [] => []
  | c :: cs =>
    let segs := splitNl (c :: cs)
    if (c :: cs).getLast? = some '\n' then
      (segs.dropLast.map stripCR).map String.mk
    else
      (segs.dropLast.map stripCR).map String.mk ++ [String.mk (segs.getLastD [])]

/-- The two `debug!`-logged failure branches of the source parser:
`MalformedOutput` is "Malformed CGI response" (line sequence exhausted
before a blank line), `InvalidHeaderLine` is "Invalid CGI header"
(a header candidate line with no colon).  The source erases both to the
unit error type `()`. -/
inductive CGIParseFailure : Type where
  | MalformedOutput : CGIParseFailure
  | InvalidHeaderLine : CGIParseFailure
  deriving DecidableEq, Repr

/-- The header loop of the source `parse_cgi_headers`, instrumented with
the failure kind.  The source consumes a `Lines` iterator and leaves the
unconsumed remainder in it; here the remainder is returned alongside the
accumulated map. -/
def parse_cgi_headers_traced :
    List String → CGIResponseHeaderMap →
    Except CGIParseFailure (CGIResponseHeaderMap × List String)
  | [], _ => Except.error CGIParseFailure.MalformedOutput
  | next_line :: rest, headers =>
    if next_line = "" then Except.ok (headers, rest)
    else
      match split_once next_line ':' with
      | none => Except.error CGIParseFailure.InvalidHeaderLine
      | some (before, after) =>
        match CGIResponseHeader.from_str before with
        | some header_key => parse_cgi_headers_traced rest (headers.insert header_key after)
        | none => parse_cgi_headers_traced rest headers

/-- The source `parse_cgi_headers` with its actual `Result<_, ()>`
signature (`Option` here): both failure branches return the same
information-free failure value. -/
def parse_cgi_headers :
    List String → CGIResponseHeaderMap →
    Option (CGIResponseHeaderMap × List String)
  | [], _ => none
  | next_line :: rest, headers =>
    if next_line = "" then some (headers, rest)
    else
      match split_once next_line ':' with
      | none => none
      | some (before, after) =>
        match CGIResponseHeader.from_str before with
        | some header_key => parse_cgi_headers rest (headers.insert header_key after)
        | none => parse_cgi_headers rest headers

/-- The source `parse_cgi_response`: split the raw output into lines,
run the header loop, and rejoin the unconsumed lines with no separator
(`collect::<String>()`) as the body. -/
def parse_cgi_response (cgi_output : String) : Option CGIScriptResponse :=
  match parse_cgi_headers (rustLines cgi_output) CGIResponseHeaderMap.empty with
  | none => none
  | some (response_headers, rest) =>
    some ⟨response_headers, String.join rest⟩

/-- The instrumented counterpart of `parse_cgi_response`, reporting which
debug-logged branch produced a failure. -/
def parse_cgi_response_traced (cgi_output : String) :
    Except CGIParseFailure CGIScriptResponse :=
  match parse_cgi_headers_traced (rustLines cgi_output) CGIResponseHeaderMap.empty with
  | Except.error e => Except.error e
  | Except.ok (response_headers, rest) =>
    Except.ok ⟨response_headers, String.join rest⟩

/-- A synthetic HTTP request as the source builds it with
`Request::builder().method("GET").uri(location).body(String::from(""))`. -/
structure HttpRequest : Type where
  method : String
  uri : String
  body : String
  deriving DecidableEq, Repr

/-- An HTTP response (`http::Response<String>`): status, headers, body. -/
structure HttpResponse : Type where
  status : Nat
  headers : List (String × String)
  body : String
  deriving DecidableEq, Repr

/-- Fold the value of an all-digit character list onto an accumulator;
any non-digit character makes the whole parse fail. -/
def digitsToNat (acc : Nat) : List Char → Option Nat
  | [] => some acc
  | c :: rest =>
    if c.isDigit then digitsToNat (acc * 10 + (c.toNat - 48)) rest else none

/-- The `http` crate's `StatusCode::from_str`, which the source applies to
the `Status` header value: the input must be exactly three ASCII digits
and denote a value of at least 100 (so the leading digit is nonzero);
anything else, including surrounding whitespace, is rejected. -/
def statusCode_from_str (s : String) : Option Nat :=
  if s.data.length = 3 then
    match digitsToNat 0 s.data with
    | none => none
    | some n => if 100 ≤ n then some n else none
  else none

/-- The source `local_redirect`: build a synthetic GET request for the
`Location` path and delegate to the static handler.  `Request::builder`
can only fail on the `.uri(location)` step, so its fallibility is
abstracted by the `uri_valid` predicate; the static handler and the
error-response renderer `generate_error_response` (from
`crate::http_server::response`, outside this file's source) are the
collaborator parameters the source consumes. -/
def local_redirect (generate_error_response : Nat → HttpResponse)
    (uri_valid : String → Bool)
    (static_handler : HttpRequest → Option HttpResponse)
    (location : String) : HttpResponse :=
  let static_request : Option HttpRequest :=
    if uri_valid location then some ⟨"GET", location, ""⟩ else none
  match static_request with
  | none => generate_error_response 500
  | some static_request =>
    match static_handler static_request with
    | none => generate_error_response 500
    | some response => response

/-- The source `client_redirect`: a 302 Found response carrying the raw
location value under the lower-case `location` header name and an empty
body.  `Response::builder` can only fail on the `.header(_, location)`
value, abstracted by the `header_value_valid` predicate. -/
def client_redirect (generate_error_response : Nat → HttpResponse)
    (header_value_valid : String → Bool)
    (location : String) : HttpResponse :=
  let response : Option HttpResponse :=
    if header_value_valid location then
      some ⟨302, [("location", location)], ""⟩
    else none
  match response with
  | none => generate_error_response 500
  | some response => response

/-- The source `document_response`: resolve the status (default "200",
then `StatusCode::from_str`), require a Content-Type value, and build the
response with the lower-case `content-type` header and the parsed body.
The only fallible builder step is the content-type header value,
abstracted by `header_value_valid`. -/
def document_response (generate_error_response : Nat → HttpResponse)
    (header_value_valid : String → Bool)
    (headers : CGIResponseHeaderMap) (body : String) : HttpResponse :=
  let status :=
    match headers.get CGIResponseHeader.Status with
    | none => "200"
    | some status => status
  match statusCode_from_str status with
  | none => generate_error_response 500
  | some status =>
    match headers.get CGIResponseHeader.ContentType with
    | none => generate_error_response 500
    | some content_type =>
      let response : Option HttpResponse :=
        if header_value_valid content_type then
          some ⟨status, [("content-type", content_type)], body⟩
        else none
      match response with
      | none => generate_error_response 500
      | some response => response

/-- Character-level prefix test, used to model Rust `str::starts_with`. -/
def starts_with_chars : List Char → List Char → Bool
  | [], _ => true
  | _ :: _, [] => false
  | p :: ps, c :: cs => if p = c then starts_with_chars ps cs else false

/-- Rust `str::starts_with`, applied by the source to test whether the
Location value begins with "/". -/
def starts_with (s pre : String) : Bool :=
  starts_with_chars pre.data s.data

/-- The source `convert_cgi_response_to_http`: classify the parsed script
output by whether a Location header is present and whether its value
starts with "/". The `stream` argument of the source is only passed on to
the static handler, so it is folded into the handler parameter. -/
def convert_cgi_response_to_http (generate_error_response : Nat → HttpResponse)
    (uri_valid header_value_valid : String → Bool)
    (static_handler : HttpRequest → Option HttpResponse)
    (cgi_response : CGIScriptResponse) : HttpResponse :=
  let response_headers := cgi_response.headers
  let response_body := cgi_response.body
  match response_headers.get CGIResponseHeader.Location with
  | some location =>
    if starts_with location "/" then
      local_redirect generate_error_response uri_valid static_handler location
    else
      client_redirect generate_error_response header_value_valid location
  | none =>
    document_response generate_error_response header_value_valid response_headers response_body

/-- Erase the failure kind, as the source does when it returns `Err(())`
from both failure branches. -/
def forgetFailure {α : Type} : Except CGIParseFailure α → Option α
  | Except.error _ => none
  | Except.ok r => some r

/-- The untraced parser is the traced parser with the failure kind erased. -/
theorem parse_cgi_headers_eq_traced (ls : List String) : ∀ m,
    parse_cgi_headers ls m = forgetFailure (parse_cgi_headers_traced ls m) := by
  induction ls with
  | nil => intro m; rfl
  | cons l rest ih =>
    intro m
    by_cases hl : l = ""
    · simp [parse_cgi_headers, parse_cgi_headers_traced, hl, forgetFailure]
    · simp only [parse_cgi_headers, parse_cgi_headers_traced, if_neg hl]
      cases hsplit : split_once l ':' with
      | none => simp [forgetFailure]
      | some ba =>
        obtain ⟨b, a⟩ := ba
        cases hk : CGIResponseHeader.from_str b with
        | none => simpa [hk] using ih m
        | some k => simpa [hk] using ih (m.insert k a)

/-- Erasure agreement at the `parse_cgi_response` level. -/
theorem parse_cgi_response_eq_traced (raw : String) :
    parse_cgi_response raw = forgetFailure (parse_cgi_response_traced raw) := by
  simp only [parse_cgi_response, parse_cgi_response_traced,
    parse_cgi_headers_eq_traced]
  cases parse_cgi_headers_traced (rustLines raw) CGIResponseHeaderMap.empty with
  | error e => rfl
  | ok r => rfl

/-- Header lines that are nonempty and contain a colon are consumed one by
one; a blank line then ends the header section with the lines after it
untouched. -/
theorem parse_cgi_headers_traced_success (pre : List String) : ∀ post m,
    (∀ l ∈ pre, l ≠ "" ∧ (split_once l ':').isSome = true) →
    ∃ m', parse_cgi_headers_traced (pre ++ "" :: post) m = Except.ok (m', post) := by
  induction pre with
  | nil =>
    intro post m _
    exact ⟨m, by simp [parse_cgi_headers_traced]⟩
  | cons l pre ih =>
    intro post m hpre
    obtain ⟨hne, hsome⟩ := hpre l (List.mem_cons_self l pre)
    obtain ⟨⟨b, a⟩, hsplit⟩ := Option.isSome_iff_exists.mp hsome
    have hrest : ∀ l' ∈ pre, l' ≠ "" ∧ (split_once l' ':').isSome = true :=
      fun l' hl' => hpre l' (List.mem_cons_of_mem l hl')
    cases hk : CGIResponseHeader.from_str b with
    | some k =>
      obtain ⟨m', hm'⟩ := ih post (m.insert k a) hrest
      exact ⟨m', by simp [parse_cgi_headers_traced, hne, hsplit, hk, hm']⟩
    | none =>
      obtain ⟨m', hm'⟩ := ih post m hrest
      exact ⟨m', by simp [parse_cgi_headers_traced, hne, hsplit, hk, hm']⟩

/-- When every header line before the blank separator carries an
unrecognized name, all of them are dropped and the accumulated map is
returned unchanged. -/
theorem parse_cgi_headers_traced_unrecognized (pre : List String) : ∀ post m,
    (∀ l ∈ pre, l ≠ "" ∧ (split_once l ':').isSome = true) →
    (∀ l ∈ pre, ∀ b a, split_once l ':' = some (b, a) →
      CGIResponseHeader.from_str b = none) →
    parse_cgi_headers_traced (pre ++ "" :: post) m = Except.ok (m, post) := by
  induction pre with
  | nil =>
    intro post m _ _
    simp [parse_cgi_headers_traced]
  | cons l pre ih =>
    intro post m hpre hunrec
    obtain ⟨hne, hsome⟩ := hpre l (List.mem_cons_self l pre)
    obtain ⟨⟨b, a⟩, hsplit⟩ := Option.isSome_iff_exists.mp hsome
    have hk := hunrec l (List.mem_cons_self l pre) b a hsplit
    have := ih post m
      (fun l' hl' => hpre l' (List.mem_cons_of_mem l hl'))
      (fun l' hl' => hunrec l' (List.mem_cons_of_mem l hl'))
    simp [parse_cgi_headers_traced, hne, hsplit, hk, this]

/-- A nonempty colon-less line reached before any blank line fires the
"Invalid CGI header" branch, whatever comes after it. -/
theorem parse_cgi_headers_traced_invalid (pre : List String) : ∀ bad rest m,
    (∀ l ∈ pre, l ≠ "" ∧ (split_once l ':').isSome = true) →
    bad ≠ "" → split_once bad ':' = none →
    parse_cgi_headers_traced (pre ++ bad :: rest) m =
      Except.error CGIParseFailure.InvalidHeaderLine := by
  induction pre with
  | nil =>
    intro bad rest m _ hbad hsplit
    simp [parse_cgi_headers_traced, hbad, hsplit]
  | cons l pre ih =>
    intro bad rest m hpre hbad hsplit
    obtain ⟨hne, hsome⟩ := hpre l (List.mem_cons_self l pre)
    obtain ⟨⟨b, a⟩, hsp⟩ := Option.isSome_iff_exists.mp hsome
    have hrest := fun l' hl' => hpre l' (List.mem_cons_of_mem l hl')
    cases hk : CGIResponseHeader.from_str b with
    | some k => simp [parse_cgi_headers_traced, hne, hsp, hk,
        ih bad rest (m.insert k a) hrest hbad hsplit]
    | none => simp [parse_cgi_headers_traced, hne, hsp, hk,
        ih bad rest m hrest hbad hsplit]

/-- Exhausting the line sequence with no blank line, all lines being
well-formed header lines, fires the "Malformed CGI response" branch. -/
theorem parse_cgi_headers_traced_malformed (ls : List String) : ∀ m,
    ("" ∉ ls) → (∀ l ∈ ls, (split_once l ':').isSome = true) →
    parse_cgi_headers_traced ls m =
      Except.error CGIParseFailure.MalformedOutput := by
  induction ls with
  | nil => intro m _ _; rfl
  | cons l rest ih =>
    intro m hnb hcolon
    have hne : l ≠ "" := fun h => hnb (h ▸ List.mem_cons_self l rest)
    obtain ⟨⟨b, a⟩, hsp⟩ :=
      Option.isSome_iff_exists.mp (hcolon l (List.mem_cons_self l rest))
    have hnb' : "" ∉ rest := fun h => hnb (List.mem_cons_of_mem l h)
    have hcolon' := fun l' hl' => hcolon l' (List.mem_cons_of_mem l hl')
    cases hk : CGIResponseHeader.from_str b with
    | some k => simp [parse_cgi_headers_traced, hne, hsp, hk,
        ih (m.insert k a) hnb' hcolon']
    | none => simp [parse_cgi_headers_traced, hne, hsp, hk, ih m hnb' hcolon']

/-- Without a blank line the untraced header loop always fails. -/
theorem parse_cgi_headers_noblank (ls : List String) : ∀ m,
    ("" ∉ ls) → parse_cgi_headers ls m = none := by
  induction ls with
  | nil => intro m _; rfl
  | cons l rest ih =>
    intro m hnb
    have hne : l ≠ "" := fun h => hnb (h ▸ List.mem_cons_self l rest)
    have hnb' : "" ∉ rest := fun h => hnb (List.mem_cons_of_mem l h)
    simp only [parse_cgi_headers, if_neg hne]
    cases hsp : split_once l ':' with
    | none => rfl
    | some ba =>
      obtain ⟨b, a⟩ := ba
      cases hk : CGIResponseHeader.from_str b with
      | some k => simp [hk, ih (m.insert k a) hnb']
      | none => simp [hk, ih m hnb']

/-- C1: for every parsed script output whose header map has a Location
value starting with "/", the classifier performs internal re-dispatch: it
hands the static handler a synthetic GET request with that path as target
and an empty body; it falls back to the 500 error response when request
construction fails or the handler returns nothing, and otherwise returns
the handler's response unchanged — never a constructed 302. -/
theorem c1_local_redirect_dispatch
    (generate_error_response : Nat → HttpResponse)
    (uri_valid header_value_valid : String → Bool)
    (static_handler : HttpRequest → Option HttpResponse)
    (headers : CGIResponseHeaderMap) (body loc : String)
    (hloc : headers.location = some loc)
    (hpath : starts_with loc "/" = true) :
    (uri_valid loc = false →
      convert_cgi_response_to_http generate_error_response uri_valid header_value_valid
        static_handler ⟨headers, body⟩ = generate_error_response 500) ∧
    (uri_valid loc = true → static_handler ⟨"GET", loc, ""⟩ = none →
      convert_cgi_response_to_http generate_error_response uri_valid header_value_valid
        static_handler ⟨headers, body⟩ = generate_error_response 500) ∧
    (∀ r, uri_valid loc = true → static_handler ⟨"GET", loc, ""⟩ = some r →
      convert_cgi_response_to_http generate_error_response uri_valid header_value_valid
        static_handler ⟨headers, body⟩ = r) := by
  refine ⟨fun huv => ?_, fun huv hh => ?_, fun r huv hh => ?_⟩
  · simp [convert_cgi_response_to_http, CGIResponseHeaderMap.get, hloc, hpath,
      local_redirect, huv]
  · simp [convert_cgi_response_to_http, CGIResponseHeaderMap.get, hloc, hpath,
      local_redirect, huv, hh]
  · simp [convert_cgi_response_to_http, CGIResponseHeaderMap.get, hloc, hpath,
      local_redirect, huv, hh]

/-- Witness for C1: a handler echoing the request target serves the
re-dispatched path "/foo". -/
theorem c1_local_redirect_dispatch_witness :
    convert_cgi_response_to_http (fun s => ⟨s, [], ""⟩) (fun _ => true) (fun _ => true)
      (fun r => some ⟨200, [], r.uri⟩) ⟨⟨none, some "/foo", none⟩, "x"⟩ =
      ⟨200, [], "/foo"⟩ :=
  (c1_local_redirect_dispatch (fun s => ⟨s, [], ""⟩) (fun _ => true) (fun _ => true)
      (fun r => some ⟨200, [], r.uri⟩) ⟨none, some "/foo", none⟩ "x" "/foo"
      rfl (by decide)).2.2 ⟨200, [], "/foo"⟩ rfl rfl

/-- C2: for every parsed script output whose Location value does not start
with "/", the classifier builds a 302 Found response with the raw value
under the `location` header and an empty body, falling back to the 500
error response when the response builder fails. -/
theorem c2_client_redirect_dispatch
    (generate_error_response : Nat → HttpResponse)
    (uri_valid header_value_valid : String → Bool)
    (static_handler : HttpRequest → Option HttpResponse)
    (headers : CGIResponseHeaderMap) (body loc : String)
    (hloc : headers.location = some loc)
    (hpath : starts_with loc "/" = false) :
    (header_value_valid loc = true →
      convert_cgi_response_to_http generate_error_response uri_valid header_value_valid
        static_handler ⟨headers, body⟩ = ⟨302, [("location", loc)], ""⟩) ∧
    (header_value_valid loc = false →
      convert_cgi_response_to_http generate_error_response uri_valid header_value_valid
        static_handler ⟨headers, body⟩ = generate_error_response 500) := by
  refine ⟨fun hhv => ?_, fun hhv => ?_⟩ <;>
    simp [convert_cgi_response_to_http, CGIResponseHeaderMap.get, hloc, hpath,
      client_redirect, hhv]

/-- Witness for C2 at the spec's own example value. -/
theorem c2_client_redirect_dispatch_witness :
    convert_cgi_response_to_http (fun s => ⟨s, [], ""⟩) (fun _ => true) (fun _ => true)
      (fun _ => none) ⟨⟨none, some "https://example.com", none⟩, "x"⟩ =
      ⟨302, [("location", "https://example.com")], ""⟩ :=
  (c2_client_redirect_dispatch (fun s => ⟨s, [], ""⟩) (fun _ => true) (fun _ => true)
      (fun _ => none) ⟨none, some "https://example.com", none⟩ "x" "https://example.com"
      rfl (by decide)).1 rfl

/-- C3: with no Location header and no Content-Type header the classifier
returns the 500 error response, whatever the body and the Status value. -/
theorem c3_missing_content_type_is_500
    (generate_error_response : Nat → HttpResponse)
    (uri_valid header_value_valid : String → Bool)
    (static_handler : HttpRequest → Option HttpResponse)
    (headers : CGIResponseHeaderMap) (body : String)
    (hloc : headers.location = none)
    (hct : headers.contentType = none) :
    convert_cgi_response_to_http generate_error_response uri_valid header_value_valid
      static_handler ⟨headers, body⟩ = generate_error_response 500 := by
  have h200 : statusCode_from_str "200" = some 200 := by decide
  simp only [convert_cgi_response_to_http, CGIResponseHeaderMap.get, hloc]
  cases hs : headers.status with
  | none => simp [document_response, CGIResponseHeaderMap.get, hs, hct, h200]
  | some s =>
    cases hn : statusCode_from_str s with
    | none => simp [document_response, CGIResponseHeaderMap.get, hs, hct, hn]
    | some n => simp [document_response, CGIResponseHeaderMap.get, hs, hct, hn]

/-- Witness for C3 with an arbitrary Status value present. -/
theorem c3_missing_content_type_is_500_witness :
    convert_cgi_response_to_http (fun s => ⟨s, [], ""⟩) (fun _ => true) (fun _ => true)
      (fun _ => none) ⟨⟨none, none, some "201"⟩, "hello"⟩ = ⟨500, [], ""⟩ :=
  c3_missing_content_type_is_500 (fun s => ⟨s, [], ""⟩) (fun _ => true) (fun _ => true)
    (fun _ => none) ⟨none, none, some "201"⟩ "hello" rfl rfl

/-- C4: in document mode (Location absent, Content-Type present and a
valid header value) the status defaults to 200 when no Status header is
present, a parseable Status value becomes the response status, an
unparseable one yields the 500 error response, and the success responses
carry the declared content type and the body unchanged. -/
theorem c4_document_mode_status
    (generate_error_response : Nat → HttpResponse)
    (uri_valid header_value_valid : String → Bool)
    (static_handler : HttpRequest → Option HttpResponse)
    (headers : CGIResponseHeaderMap) (body ct : String)
    (hloc : headers.location = none)
    (hct : headers.contentType = some ct)
    (hvct : header_value_valid ct = true) :
    (headers.status = none →
      convert_cgi_response_to_http generate_error_response uri_valid header_value_valid
        static_handler ⟨headers, body⟩ = ⟨200, [("content-type", ct)], body⟩) ∧
    (∀ s n, headers.status = some s → statusCode_from_str s = some n →
      convert_cgi_response_to_http generate_error_response uri_valid header_value_valid
        static_handler ⟨headers, body⟩ = ⟨n, [("content-type", ct)], body⟩) ∧
    (∀ s, headers.status = some s → statusCode_from_str s = none →
      convert_cgi_response_to_http generate_error_response uri_valid header_value_valid
        static_handler ⟨headers, body⟩ = generate_error_response 500) := by
  have h200 : statusCode_from_str "200" = some 200 := by decide
  refine ⟨fun hs => ?_, fun s n hs hn => ?_, fun s hs hn => ?_⟩
  · simp [convert_cgi_response_to_http, CGIResponseHeaderMap.get, hloc,
      document_response, hs, hct, hvct, h200]
  · simp [convert_cgi_response_to_http, CGIResponseHeaderMap.get, hloc,
      document_response, hs, hct, hvct, hn]
  · simp [convert_cgi_response_to_http, CGIResponseHeaderMap.get, hloc,
      document_response, hs, hct, hn]

/-- Witness for C4 at the spec's own example: Status "201", text/plain,
body "hello". -/
theorem c4_document_mode_status_witness :
    convert_cgi_response_to_http (fun s => ⟨s, [], ""⟩) (fun _ => true) (fun _ => true)
      (fun _ => none) ⟨⟨some "text/plain", none, some "201"⟩, "hello"⟩ =
      ⟨201, [("content-type", "text/plain")], "hello"⟩ :=
  (c4_document_mode_status (fun s => ⟨s, [], ""⟩) (fun _ => true) (fun _ => true)
      (fun _ => none) ⟨some "text/plain", none, some "201"⟩ "hello" "text/plain"
      rfl rfl rfl).2.1 "201" 201 rfl (by decide)

/-- C10: header values are stored untrimmed, so "Status: 201" stores
" 201"; a value beginning with a space never parses as a status code; the
end-to-end parse-then-classify pipeline therefore returns the 500 error
response for such input, while the same input without the space yields the
declared 201 status. -/
theorem c10_status_space_untrimmed :
    (parse_cgi_response "Content-Type:text/plain\nStatus: 201\n\nok" =
      some ⟨⟨some "text/plain", none, some " 201"⟩, "ok"⟩) ∧
    (∀ v : String, statusCode_from_str (" " ++ v) = none) ∧
    (∀ (generate_error_response : Nat → HttpResponse)
      (uri_valid header_value_valid : String → Bool)
      (static_handler : HttpRequest → Option HttpResponse),
      convert_cgi_response_to_http generate_error_response uri_valid header_value_valid
        static_handler ⟨⟨some "text/plain", none, some " 201"⟩, "ok"⟩ =
        generate_error_response 500) ∧
    (∀ (generate_error_response : Nat → HttpResponse)
      (uri_valid header_value_valid : String → Bool)
      (static_handler : HttpRequest → Option HttpResponse),
      header_value_valid "text/plain" = true →
      convert_cgi_response_to_http generate_error_response uri_valid header_value_valid
        static_handler ⟨⟨some "text/plain", none, some "201"⟩, "ok"⟩ =
        ⟨201, [("content-type", "text/plain")], "ok"⟩) := by
  refine ⟨by decide, fun v => ?_, fun err uv hv sh => ?_, fun err uv hv sh hvct => ?_⟩
  · have hd : (" " ++ v).data = ' ' :: v.data := rfl
    have hdig : digitsToNat 0 (' ' :: v.data) = none := by
      simp [digitsToNat, show (' ').isDigit = false from by decide]
    simp [statusCode_from_str, hd, hdig]
  · have hsp : statusCode_from_str " 201" = none := by decide
    simp [convert_cgi_response_to_http, CGIResponseHeaderMap.get,
      document_response, hsp]
  · have h201 : statusCode_from_str "201" = some 201 := by decide
    simp [convert_cgi_response_to_http, CGIResponseHeaderMap.get,
      document_response, h201, hvct]

/-- Witness for C10: the space-prefixed value fails to parse and the
space-free pipeline yields 201. -/
theorem c10_status_space_untrimmed_witness :
    statusCode_from_str (" " ++ "201") = none ∧
    convert_cgi_response_to_http (fun s => ⟨s, [], ""⟩) (fun _ => true) (fun _ => true)
      (fun _ => none) ⟨⟨some "text/plain", none, some "201"⟩, "ok"⟩ =
      ⟨201, [("content-type", "text/plain")], "ok"⟩ :=
  ⟨c10_status_space_untrimmed.2.1 "201",
   c10_status_space_untrimmed.2.2.2 (fun s => ⟨s, [], ""⟩) (fun _ => true)
     (fun _ => true) (fun _ => none) rfl⟩

/-- C5 counterexample: on raw input "\na\nb" (blank separator first, then
a two-line body) parsing succeeds but the returned body is "ab", the
remaining lines rejoined with no separator, not the raw text "a\nb" that
stands strictly after the blank line. -/
theorem c5_body_counterexample :
    parse_cgi_response "\na\nb" = some ⟨CGIResponseHeaderMap.empty, "ab"⟩ ∧
    "ab" ≠ "a\nb" :=
  ⟨by decide, by decide⟩

/-- C5 (amended): when a blank line follows zero or more nonempty
colon-carrying header lines, parsing succeeds and the body is the
concatenation, with no separator, of the lines strictly after that blank
line; when none of those header names is recognized the header map is
empty. -/
theorem c5_parse_success_joined_body (raw : String) (pre post : List String)
    (hsplit : rustLines raw = pre ++ "" :: post)
    (hpre : ∀ l ∈ pre, l ≠ "" ∧ (split_once l ':').isSome = true) :
    (∃ m, parse_cgi_response raw = some ⟨m, String.join post⟩) ∧
    ((∀ l ∈ pre, ∀ b a, split_once l ':' = some (b, a) →
        CGIResponseHeader.from_str b = none) →
      parse_cgi_response raw = some ⟨CGIResponseHeaderMap.empty, String.join post⟩) := by
  constructor
  · obtain ⟨m', hm'⟩ :=
      parse_cgi_headers_traced_success pre post CGIResponseHeaderMap.empty hpre
    exact ⟨m', by
      simp [parse_cgi_response, hsplit, parse_cgi_headers_eq_traced, hm', forgetFailure]⟩
  · intro hunrec
    have h := parse_cgi_headers_traced_unrecognized pre post
      CGIResponseHeaderMap.empty hpre hunrec
    simp [parse_cgi_response, hsplit, parse_cgi_headers_eq_traced, h, forgetFailure]

/-- Witness for amended C5: an unrecognized header line, the separator and
a body line parse to an empty map and the body. -/
theorem c5_parse_success_joined_body_witness :
    parse_cgi_response "X-Custom:1\n\nab" =
      some ⟨CGIResponseHeaderMap.empty, "ab"⟩ :=
  (c5_parse_success_joined_body "X-Custom:1\n\nab" ["X-Custom:1"] ["ab"]
      (by decide) (by decide)).2 (by
    intro l hl b a hba
    have hl' : l = "X-Custom:1" := by simpa using hl
    subst hl'
    have hsp : split_once "X-Custom:1" ':' = some ("X-Custom", "1") := by decide
    rw [hsp] at hba
    have hba' : "X-Custom" = b ∧ "1" = a := by simpa using hba
    rw [← hba'.1]
    decide)

/-- C6 counterexample: the input "abc" has no blank line, yet the failing
branch is "Invalid CGI header" (the first line has no colon), not
"Malformed CGI response" as the claim states. -/
theorem c6_failure_kind_counterexample :
    ("" ∉ rustLines "abc") ∧
    parse_cgi_response_traced "abc" = Except.error CGIParseFailure.InvalidHeaderLine ∧
    parse_cgi_response_traced "abc" ≠ Except.error CGIParseFailure.MalformedOutput := by
  refine ⟨by decide, rfl, fun h => ?_⟩
  have h' := Except.error.inj ((rfl :
    parse_cgi_response_traced "abc" =
      Except.error CGIParseFailure.InvalidHeaderLine).symm.trans h)
  exact absurd h' (by decide)

/-- C6 (amended): every raw input with no blank line fails to parse with
no partial result; the failing branch is the MalformedOutput one exactly
when every line carries a colon (so the header loop exhausts the lines),
while a colon-less line makes the InvalidHeaderLine branch fire first. -/
theorem c6_noblank_fails (raw : String) (hnb : "" ∉ rustLines raw) :
    parse_cgi_response raw = none ∧
    ((∀ l ∈ rustLines raw, (split_once l ':').isSome = true) →
      parse_cgi_response_traced raw = Except.error CGIParseFailure.MalformedOutput) := by
  constructor
  · simp [parse_cgi_response,
      parse_cgi_headers_noblank (rustLines raw) CGIResponseHeaderMap.empty hnb]
  · intro hcolon
    simp [parse_cgi_response_traced,
      parse_cgi_headers_traced_malformed (rustLines raw)
        CGIResponseHeaderMap.empty hnb hcolon]

/-- Witness for amended C6: a single well-formed header line with no blank
separator fails through the MalformedOutput branch. -/
theorem c6_noblank_fails_witness :
    parse_cgi_response "A:b" = none ∧
    parse_cgi_response_traced "A:b" = Except.error CGIParseFailure.MalformedOutput :=
  ⟨(c6_noblank_fails "A:b" (by decide)).1,
   (c6_noblank_fails "A:b" (by decide)).2 (by decide)⟩

/-- C7: a nonempty colon-less line reached before any blank separator
makes parsing fail through the InvalidHeaderLine branch with no partial
result, while lines after the blank separator are never validated as
headers — a parse with well-formed header lines succeeds whatever colon-less
text the body holds. -/
theorem c7_colonless_header_fails :
    (∀ (raw : String) (pre : List String) (bad : String) (rest : List String),
      rustLines raw = pre ++ bad :: rest →
      (∀ l ∈ pre, l ≠ "" ∧ (split_once l ':').isSome = true) →
      bad ≠ "" → split_once bad ':' = none →
      parse_cgi_response_traced raw = Except.error CGIParseFailure.InvalidHeaderLine ∧
      parse_cgi_response raw = none) ∧
    (∀ (raw : String) (pre post : List String),
      rustLines raw = pre ++ "" :: post →
      (∀ l ∈ pre, l ≠ "" ∧ (split_once l ':').isSome = true) →
      (parse_cgi_response raw).isSome = true) := by
  constructor
  · intro raw pre bad rest hsplit hpre hbad hnc
    have h := parse_cgi_headers_traced_invalid pre bad rest
      CGIResponseHeaderMap.empty hpre hbad hnc
    constructor
    · simp [parse_cgi_response_traced, hsplit, h]
    · simp [parse_cgi_response, hsplit, parse_cgi_headers_eq_traced, h, forgetFailure]
  · intro raw pre post hsplit hpre
    obtain ⟨m', hm'⟩ :=
      parse_cgi_headers_traced_success pre post CGIResponseHeaderMap.empty hpre
    simp [parse_cgi_response, hsplit, parse_cgi_headers_eq_traced, hm', forgetFailure]

/-- Witness for C7: "nocolon" fails through InvalidHeaderLine, while a
colon-less line in body position parses fine. -/
theorem c7_colonless_header_fails_witness :
    parse_cgi_response_traced "nocolon" = Except.error CGIParseFailure.InvalidHeaderLine ∧
    (parse_cgi_response "\nno colon body").isSome = true :=
  ⟨(c7_colonless_header_fails.1 "nocolon" [] "nocolon" [] (by decide) (by simp)
      (by decide) (by decide)).1,
   c7_colonless_header_fails.2 "\nno colon body" [] ["no colon body"]
     (by decide) (by simp)⟩

/-- C8 counterexample: the underscore spelling "content_type" is not
recognized — the line is dropped and the ContentType key stays empty,
where the claim expects it to be populated. -/
theorem c8_underscore_counterexample :
    parse_cgi_response "content_type:text/plain\n\nx" =
      some ⟨CGIResponseHeaderMap.empty, "x"⟩ ∧
    CGIResponseHeaderMap.empty.contentType ≠ some "text/plain" :=
  ⟨by decide, by decide⟩

/-- C8 (amended): header-name matching is ASCII-case-insensitive against
the Train-Case serializations — any two spellings equal up to ASCII case
are matched alike, and the three case spellings of "content-type" all map
to the ContentType key — but hyphen/underscore style is not abstracted
("Content_Type" and "ContentType" are unrecognized); an unrecognized name
makes the parser drop the line and continue with the next one. -/
theorem c8_case_insensitive_names :
    (CGIResponseHeader.from_str "content-type" = some CGIResponseHeader.ContentType ∧
     CGIResponseHeader.from_str "Content-Type" = some CGIResponseHeader.ContentType ∧
     CGIResponseHeader.from_str "CONTENT-TYPE" = some CGIResponseHeader.ContentType) ∧
    (∀ s t : String, s.data.map asciiLower = t.data.map asciiLower →
      CGIResponseHeader.from_str s = CGIResponseHeader.from_str t) ∧
    (CGIResponseHeader.from_str "Content_Type" = none ∧
     CGIResponseHeader.from_str "ContentType" = none) ∧
    (∀ (m : CGIResponseHeaderMap) (line : String) (rest : List String) (b a : String),
      line ≠ "" → split_once line ':' = some (b, a) →
      CGIResponseHeader.from_str b = none →
      parse_cgi_headers_traced (line :: rest) m = parse_cgi_headers_traced rest m) := by
  refine ⟨⟨by decide, by decide, by decide⟩, fun s t h => ?_, ⟨by decide, by decide⟩,
    fun m line rest b a hne hsp hk => ?_⟩
  · simp [CGIResponseHeader.from_str, eq_ignore_ascii_case, h]
  · simp [parse_cgi_headers_traced, hne, hsp, hk]

/-- Witness for amended C8: case-insensitivity at "LOCATION"/"location"
and the drop-and-continue step on an unrecognized header line. -/
theorem c8_case_insensitive_names_witness :
    CGIResponseHeader.from_str "LOCATION" = CGIResponseHeader.from_str "location" ∧
    parse_cgi_headers_traced ["X-Custom:1", ""] CGIResponseHeaderMap.empty =
      parse_cgi_headers_traced [""] CGIResponseHeaderMap.empty :=
  ⟨c8_case_insensitive_names.2.1 "LOCATION" "location" (by decide),
   c8_case_insensitive_names.2.2.2 CGIResponseHeaderMap.empty "X-Custom:1" [""]
     "X-Custom" "1" (by decide) (by decide) (by decide)⟩

/-- C9 counterexample: "A:b" fails through the MalformedOutput branch and
"nocolon\n\n" through the InvalidHeaderLine branch, yet the values the
parser returns to its caller are identical — the unit error type does not
let the caller tell the two kinds apart. -/
theorem c9_unit_error_counterexample :
    parse_cgi_response_traced "A:b" = Except.error CGIParseFailure.MalformedOutput ∧
    parse_cgi_response_traced "nocolon\n\n" =
      Except.error CGIParseFailure.InvalidHeaderLine ∧
    parse_cgi_response "A:b" = parse_cgi_response "nocolon\n\n" :=
  ⟨rfl, rfl, by decide⟩

/-- C9 (amended): parse failures are surfaced to the caller as a failure
value, but the error type carries no information: any two failing inputs
yield the very same returned value, whichever of the two debug-logged
failure kinds occurred. -/
theorem c9_failures_indistinguishable (raw raw' : String)
    (h : ∃ e, parse_cgi_response_traced raw = Except.error e)
    (h' : ∃ e, parse_cgi_response_traced raw' = Except.error e) :
    parse_cgi_response raw = none ∧
    parse_cgi_response raw = parse_cgi_response raw' := by
  obtain ⟨e, he⟩ := h
  obtain ⟨e', he'⟩ := h'
  have h1 : parse_cgi_response raw = none := by
    simp [parse_cgi_response_eq_traced, he, forgetFailure]
  have h2 : parse_cgi_response raw' = none := by
    simp [parse_cgi_response_eq_traced, he', forgetFailure]
  exact ⟨h1, h1.trans h2.symm⟩

/-- Witness for amended C9 at the two failing inputs of the
counterexample. -/
theorem c9_failures_indistinguishable_witness :
    parse_cgi_response "A:b" = none ∧
    parse_cgi_response "A:b" = parse_cgi_response "nocolon\n\n" :=
  c9_failures_indistinguishable "A:b" "nocolon\n\n"
    ⟨CGIParseFailure.MalformedOutput, rfl⟩
    ⟨CGIParseFailure.InvalidHeaderLine, rfl⟩
